import Mathlib

/-!
Shallow embedding of `sports_guesser.py`: keyword-based sport category
detection over text extracted from uploaded PDF/DOCX documents.

Text is modelled as `List Char`.  The Python method `str.lower` is
modelled by `List.map Char.toLower` (all keywords in the table are
ASCII).  The Python method `str.count` counts non-overlapping
occurrences scanning left to right, modelled by `pyCount`.
-/

/-- Leading-segment test: `leadMatch sub s` is true when `s` begins with
`sub`.  Used by `pyCount` to detect an occurrence at the current position. -/
def leadMatch : List Char → List Char → Bool
  | [], _ => true
  | _ :: _, [] => false
  | k :: ks, c :: s => k == c && leadMatch ks s

/-- Fuel-driven scanner for the Python count method: on a match, skip past the
whole occurrence (non-overlapping); otherwise advance one character.  The
fuel bounds the number of characters consumed, so `s.length` suffices. -/
def countAux : Nat → List Char → List Char → Nat
  | 0, _, _ => 0
  | fuel + 1, s, sub =>
    match s with
    | [] => 0
    | c :: rest =>
      if leadMatch sub (c :: rest) then
        1 + countAux fuel ((c :: rest).drop sub.length) sub
      else
        countAux fuel rest sub

/-- The Python expression s.count(sub): number of non-overlapping occurrences of `sub`
in `s`, scanning left to right.  Python returns the text length plus one
for an empty needle. -/
def pyCount (s sub : List Char) : Nat :=
  if sub = [] then s.length + 1 else countAux s.length s sub

/-- ALLOWED_EXTENSIONS from the source: the set of the two extensions pdf and docx. -/
def ALLOWED_EXTENSIONS : List (List Char) := ["pdf".data, "docx".data]

/-- `SPORT_CATEGORIES` from the source: category label to keyword list,
in definition order. -/
def SPORT_CATEGORIES : List (String × List String) :=
  [("Football", ["football", "fifa", "goal", "kick", "soccer", "messi", "ronaldo"]),
   ("Cricket", ["cricket", "bat", "ball", "wicket", "bowler", "batsman", "dhoni", "kohli"]),
   ("Basketball", ["basketball", "nba", "hoop", "dribble", "slam dunk", "lebron", "curry"]),
   ("Tennis", ["tennis", "grand slam", "wimbledon", "federer", "nadal", "djokovic", "serve"]),
   ("Hockey", ["hockey", "stick", "puck", "ice", "nhl", "goalie", "rink"])]

/-- The inner loop `for keyword in keywords: scores[sport] += text_lower.count(keyword)`
of `categorize_text`, accumulating the score of a category over its keywords. -/
def scoreKeywords (textLower : List Char) (keywords : List String) : Nat :=
  keywords.foldl (fun acc kw => acc + pyCount textLower kw.data) 0

/-- `max(scores, key=scores.get)` over the scores dict in insertion order:
a single linear scan keeping the current best and replacing it only on a
strictly greater score (the Python max builtin keeps the first of equals). -/
def maxByFirst : (String × Nat) → List (String × Nat) → (String × Nat)
  | best, [] => best
  | best, p :: rest => maxByFirst (if best.2 < p.2 then p else best) rest

/-- `categorize_text` generalized over the keyword table: build the score
list in table order, take the first maximum, and return its label when the
best score is positive, else "Unknown". -/
def categorize (table : List (String × List String)) (text : List Char) : String :=
  let textLower := text.map Char.toLower
  match table.map (fun p => (p.1, scoreKeywords textLower p.2)) with
  | [] => "Unknown"
  | b :: rest =>
    let best := maxByFirst b rest
    if 0 < best.2 then best.1 else "Unknown"

/-- `categorize_text` from the source: `categorize` over the global
`SPORT_CATEGORIES` table. -/
def categorize_text (text : List Char) : String :=
  categorize SPORT_CATEGORIES text

/-- Score of the `i`-th category of `SPORT_CATEGORIES` on `text`
(after the one lower-casing the source performs). -/
def sportScore (text : List Char) (i : Nat) : Nat :=
  scoreKeywords (text.map Char.toLower) ((SPORT_CATEGORIES.getD i ("", [])).2)

/-- Label of the `i`-th category of `SPORT_CATEGORIES`. -/
def sportLabel (i : Nat) : String :=
  (SPORT_CATEGORIES.getD i ("", [])).1

/-- The characters of `filename` after its last dot: the Python
expression filename.rsplit( '.' , 1)[1], defined when the filename
contains a dot. -/
def afterLastDot (filename : List Char) : List Char :=
  (filename.reverse.takeWhile (fun c => c ≠ '.')).reverse

/-- `allowed_file` from the source: the filename contains a dot and the
lower-cased extension after the last dot is in ALLOWED_EXTENSIONS. -/
def allowed_file (filename : List Char) : Bool :=
  filename.contains '.' &&
    ALLOWED_EXTENSIONS.contains ((afterLastDot filename).map Char.toLower)

/-- `extract_text_from_pdf`, with PyPDF2 as an oracle supplying the
per-page `page.extract_text()` results (`none` models a page with no
extractable text; `page.extract_text() or ""` turns it into `""`).
The source accumulates `text += page.extract_text() or ""` in page order. -/
def extract_text_from_pdf (pages : List (Option (List Char))) : List Char :=
  pages.foldl (fun text p => text ++ p.getD []) []

/-- `extract_text_from_docx`, with python-docx as an oracle supplying the
paragraph texts: `"\n".join([para.text for para in doc.paragraphs])`. -/
def extract_text_from_docx (paragraphs : List (List Char)) : List Char :=
  List.intercalate ['\n'] paragraphs

/-- The POST branch of the `upload_file` route.  `filePart` is `none` when
the form has no `file` field, otherwise the submitted filename.  `sanitize`
stands for the werkzeug function secure_filename, and `extractPdf` / `extractDocx`
for extraction from the saved file.  The result is the final value of
`category`: `none` models the handler finishing with `category = None`
(the template then renders no detected-category line). -/
def upload_file_post (sanitize : List Char → List Char)
    (extractPdf extractDocx : List Char → List Char)
    (filePart : Option (List Char)) : Option String :=
  match filePart with
  | none => some "No file part"
  | some filename =>
    if filename = [] then
      some "No selected file"
    else if allowed_file filename then
      let fn := sanitize filename
      let lowerFn := fn.map Char.toLower
      if ".pdf".data.isSuffixOf lowerFn then
        let fileText := extractPdf fn
        if fileText ≠ [] then some (categorize_text fileText) else none
      else if ".docx".data.isSuffixOf lowerFn then
        let fileText := extractDocx fn
        if fileText ≠ [] then some (categorize_text fileText) else none
      else
        some "Unsupported file type"
    else
      none

theorem categorize_text_eq (t : List Char) :
    categorize_text t =
      (let m := maxByFirst ("Football", sportScore t 0)
        [("Cricket", sportScore t 1), ("Basketball", sportScore t 2),
         ("Tennis", sportScore t 3), ("Hockey", sportScore t 4)]
       if 0 < m.2 then m.1 else "Unknown") := rfl

theorem categorize_argmax (t : List Char) (i : Nat)
    (hi : i < SPORT_CATEGORIES.length)
    (hmax : ∀ j < SPORT_CATEGORIES.length, sportScore t j ≤ sportScore t i)
    (hfirst : ∀ j < i, sportScore t j < sportScore t i)
    (hpos : 0 < sportScore t i) :
    categorize_text t = sportLabel i := by
  rw [categorize_text_eq]
  have hi5 : i < 5 := hi
  have m0 := hmax 0 (by decide)
  have m1 := hmax 1 (by decide)
  have m2 := hmax 2 (by decide)
  have m3 := hmax 3 (by decide)
  have m4 := hmax 4 (by decide)
  interval_cases i <;>
    simp only [maxByFirst] <;>
    split_ifs <;>
    first
      | rfl
      | (exfalso; revert m0 m1 m2 m3 m4 hpos hfirst; omega)
      | (exfalso
         first
           | exact absurd (hfirst 0 (by omega)) (by omega)
           | exact absurd (hfirst 1 (by omega)) (by omega)
           | exact absurd (hfirst 2 (by omega)) (by omega)
           | exact absurd (hfirst 3 (by omega)) (by omega))

theorem scoreKeywords_foldl (tl : List Char) (kws : List String) (acc : Nat) :
    kws.foldl (fun a kw => a + pyCount tl kw.data) acc
      = acc + kws.foldl (fun a kw => a + pyCount tl kw.data) 0 := by
  induction kws generalizing acc with
  | nil => simp
  | cons k ks ih =>
    simp only [List.foldl_cons]
    rw [ih (acc + pyCount tl k.data), ih (0 + pyCount tl k.data)]
    omega

theorem scoreKeywords_eq_zero (tl : List Char) (kws : List String)
    (h : ∀ kw ∈ kws, pyCount tl kw.data = 0) :
    scoreKeywords tl kws = 0 := by
  induction kws with
  | nil => rfl
  | cons k ks ih =>
    have hk := h k (by simp)
    have hks : ∀ kw ∈ ks, pyCount tl kw.data = 0 := fun kw hkw => h kw (by simp [hkw])
    simp only [scoreKeywords, List.foldl_cons] at *
    rw [scoreKeywords_foldl]
    rw [ih hks]
    omega

theorem categorize_unknown (t : List Char)
    (h : ∀ j < SPORT_CATEGORIES.length, sportScore t j = 0) :
    categorize_text t = "Unknown" := by
  rw [categorize_text_eq]
  have h0 := h 0 (by decide); have h1 := h 1 (by decide); have h2 := h 2 (by decide)
  have h3 := h 3 (by decide); have h4 := h 4 (by decide)
  simp only [maxByFirst, h0, h1, h2, h3, h4]
  norm_num

theorem categorize_lower_congr (t t' : List Char)
    (h : t'.map Char.toLower = t.map Char.toLower) :
    categorize_text t' = categorize_text t := by
  unfold categorize_text categorize
  rw [h]

theorem leadMatch_iff (sub s : List Char) :
    leadMatch sub s = true ↔ ∃ r, s = sub ++ r := by
  induction sub generalizing s with
  | nil => simp [leadMatch]
  | cons k ks ih =>
    cases s with
    | nil => simp [leadMatch]
    | cons c cs =>
      simp only [leadMatch, Bool.and_eq_true, beq_iff_eq, ih, List.cons_append,
        List.cons.injEq]
      constructor
      · rintro ⟨rfl, r, rfl⟩; exact ⟨r, rfl, rfl⟩
      · rintro ⟨r, rfl, rfl⟩; exact ⟨rfl, r, rfl⟩

theorem countAux_pos_iff (fuel : Nat) (s sub : List Char) (hsub : sub ≠ [])
    (hfuel : s.length ≤ fuel) :
    0 < countAux fuel s sub ↔ ∃ a b, s = a ++ sub ++ b := by
  induction fuel generalizing s with
  | zero =>
    have hs : s = [] := List.eq_nil_of_length_eq_zero (Nat.le_zero.mp hfuel)
    subst hs
    simp only [countAux, Nat.lt_irrefl, false_iff]
    rintro ⟨a, b, hab⟩
    cases sub with
    | nil => exact hsub rfl
    | cons x xs => simp at hab
  | succ fuel ih =>
    cases s with
    | nil =>
      simp only [countAux, Nat.lt_irrefl, false_iff]
      rintro ⟨a, b, hab⟩
      cases sub with
      | nil => exact hsub rfl
      | cons x xs => simp at hab
    | cons c rest =>
      simp only [countAux]
      by_cases hlead : leadMatch sub (c :: rest) = true
      · rw [if_pos hlead]
        obtain ⟨r, hr⟩ := (leadMatch_iff sub (c :: rest)).mp hlead
        constructor
        · intro _; exact ⟨[], r, by simp [hr]⟩
        · intro _; omega
      · rw [if_neg hlead]
        have hlen : rest.length ≤ fuel := by
          simp only [List.length_cons] at hfuel; omega
        rw [ih rest hlen]
        constructor
        · rintro ⟨a, b, rfl⟩; exact ⟨c :: a, b, rfl⟩
        · rintro ⟨a, b, hab⟩
          cases a with
          | nil =>
            exfalso
            exact hlead ((leadMatch_iff sub (c :: rest)).mpr ⟨b, by simpa using hab⟩)
          | cons a0 as =>
            simp only [List.cons_append, List.cons.injEq] at hab
            exact ⟨as, b, hab.2⟩

theorem pyCount_pos_iff (s sub : List Char) (hsub : sub ≠ []) :
    0 < pyCount s sub ↔ ∃ a b, s = a ++ sub ++ b := by
  unfold pyCount
  rw [if_neg hsub]
  exact countAux_pos_iff s.length s sub hsub (Nat.le_refl _)

theorem extract_pdf_foldl (pages : List (Option (List Char))) (acc : List Char) :
    pages.foldl (fun text p => text ++ p.getD []) acc
      = acc ++ (pages.map (fun p => p.getD [])).flatten := by
  induction pages generalizing acc with
  | nil => simp
  | cons p ps ih => simp [ih]

theorem extract_pdf_flatten (pages : List (Option (List Char))) :
    extract_text_from_pdf pages = (pages.map (fun p => p.getD [])).flatten := by
  unfold extract_text_from_pdf
  rw [extract_pdf_foldl]
  simp

theorem extract_pdf_none_skip (l r : List (Option (List Char))) :
    extract_text_from_pdf (l ++ none :: r) = extract_text_from_pdf (l ++ r) := by
  rw [extract_pdf_flatten, extract_pdf_flatten]
  simp

theorem extract_docx_cons (p : List Char) (ps : List (List Char)) :
    extract_text_from_docx (p :: ps) = p ++ (ps.map (fun q => '\n' :: q)).flatten := by
  unfold extract_text_from_docx
  induction ps generalizing p with
  | nil => simp [List.intercalate]
  | cons q qs ih =>
    simp only [List.intercalate, List.intersperse_cons_cons, List.flatten_cons] at *
    simp [ih q]

/-- C1: if the total keyword-occurrence count of one category strictly
exceeds the count of every other category, `categorize_text` returns the
label of that category; and occurrences count identically regardless of letter case, since
the text is lower-cased once before counting (any text with the same
lower-casing classifies identically). -/
theorem claim_c1_strict_max_case_insensitive (t t' : List Char) (i : Nat)
    (hi : i < SPORT_CATEGORIES.length)
    (hdom : ∀ j < SPORT_CATEGORIES.length, j ≠ i → sportScore t j < sportScore t i)
    (hcase : t'.map Char.toLower = t.map Char.toLower) :
    categorize_text t = sportLabel i ∧ categorize_text t' = categorize_text t := by
  refine ⟨?_, categorize_lower_congr t t' hcase⟩
  apply categorize_argmax t i hi
  · intro j hj
    by_cases hji : j = i
    · subst hji; exact Nat.le_refl _
    · exact Nat.le_of_lt (hdom j hj hji)
  · intro j hj
    have hj5 : j < SPORT_CATEGORIES.length := Nat.lt_trans hj hi
    exact hdom j hj5 (Nat.ne_of_lt hj)
  · by_cases hi0 : i = 0
    · subst hi0
      have h1 := hdom 1 (by decide) (by omega)
      omega
    · have h0 := hdom 0 (by decide) (by omega)
      omega

/-- C1 witness: on the text "goal" the Football score strictly exceeds all
other scores, so the result is the Football label, and the upper-cased text
"GOAL" classifies identically. -/
theorem claim_c1_witness :
    categorize_text "goal".data = sportLabel 0 ∧
      categorize_text "GOAL".data = categorize_text "goal".data :=
  claim_c1_strict_max_case_insensitive "goal".data "GOAL".data 0 (by decide)
    (by decide) (by decide)

/-- C2: when two or more categories attain the same maximum nonzero score,
`categorize_text` returns the category appearing first in the keyword
definition order of the table: the selection is a linear scan (`maxByFirst`)
that replaces the current best only on a strictly greater score, so the
first category attaining the maximum wins. -/
theorem claim_c2_tie_first_in_table_order (t : List Char) (i : Nat)
    (hi : i < SPORT_CATEGORIES.length)
    (hmax : ∀ j < SPORT_CATEGORIES.length, sportScore t j ≤ sportScore t i)
    (hfirst : ∀ j < i, sportScore t j < sportScore t i)
    (hpos : 0 < sportScore t i)
    (htie : ∃ j, j < SPORT_CATEGORIES.length ∧ j ≠ i ∧
      sportScore t j = sportScore t i) :
    categorize_text t = sportLabel i :=
  categorize_argmax t i hi hmax hfirst hpos

/-- C2 witness: on the text "basketball" the Cricket keyword "ball" and the
Basketball keyword "basketball" each match once, tying Cricket (index 1)
and Basketball (index 2) at the maximum score 1; Cricket comes first. -/
theorem claim_c2_witness : categorize_text "basketball".data = sportLabel 1 :=
  claim_c2_tie_first_in_table_order "basketball".data 1 (by decide) (by decide)
    (by decide) (by decide) ⟨2, by decide, by decide, by decide⟩

/-- C3: a text in which every keyword of every category occurs zero times
is classified as the sentinel "Unknown". -/
theorem claim_c3_no_match_unknown (t : List Char)
    (h : ∀ p ∈ SPORT_CATEGORIES, ∀ kw ∈ p.2,
      pyCount (t.map Char.toLower) kw.data = 0) :
    categorize_text t = "Unknown" := by
  apply categorize_unknown
  intro j hj
  have hj5 : j < 5 := hj
  interval_cases j <;>
    exact scoreKeywords_eq_zero _ _ (h _ (by decide))

/-- C3 witness: the text "zzz" contains no keyword of any category and is
classified "Unknown". -/
theorem claim_c3_witness : categorize_text "zzz".data = "Unknown" :=
  claim_c3_no_match_unknown "zzz".data (by decide)

/-- C4: keyword counting is substring-based with no word-boundary check:
for any nonempty keyword, its count in a text is positive exactly when the
keyword occurs as a contiguous substring, regardless of what surrounds it;
in particular "goal" inside the longer word "goalie" counts exactly as the
standalone occurrence in "goal" does (once each). -/
theorem claim_c4_substring_no_boundary :
    (∀ t kw : List Char, kw ≠ [] →
      (0 < pyCount t kw ↔ ∃ a b, t = a ++ kw ++ b)) ∧
      pyCount "goalie".data "goal".data = 1 ∧
      pyCount "goal".data "goal".data = 1 := by
  refine ⟨fun t kw hkw => pyCount_pos_iff t kw hkw, by decide, by decide⟩

/-- C4 witness: "goal" occurs embedded in "my goalie!" (no word boundary
around it), so its count there is positive. -/
theorem claim_c4_witness : 0 < pyCount "my goalie!".data "goal".data :=
  (claim_c4_substring_no_boundary.1 "my goalie!".data "goal".data (by decide)).mpr
    ⟨"my ".data, "ie!".data, by decide⟩

/-- C5: `allowed_file` accepts a filename exactly when it contains a '.'
and the substring after the last '.', lower-cased, is "pdf" or "docx";
"report.PDF" is accepted, "report" and "image.png" are rejected. -/
theorem claim_c5_allowed_file_characterization :
    (∀ f : List Char, allowed_file f = true ↔
      (f.contains '.' = true ∧
        ((afterLastDot f).map Char.toLower = "pdf".data ∨
          (afterLastDot f).map Char.toLower = "docx".data))) ∧
      allowed_file "report.PDF".data = true ∧
      allowed_file "report".data = false ∧
      allowed_file "image.png".data = false := by
  refine ⟨fun f => ?_, by decide, by decide, by decide⟩
  simp [allowed_file, ALLOWED_EXTENSIONS, List.contains]

/-- C6: a POST whose file part carries the disallowed filename "image.png"
fails `allowed_file`, yet the handler finishes with `category = None`
— no rejection label at all is produced for the disallowed-extension
case (the `elif` chain has no final `else`), for every sanitizer and
extractor. -/
theorem claim_c6_disallowed_extension_silent :
    allowed_file "image.png".data = false ∧
      ∀ sanitize extractPdf extractDocx : List Char → List Char,
        upload_file_post sanitize extractPdf extractDocx
          (some "image.png".data) = none :=
  ⟨rfl, fun _ _ _ => rfl⟩

/-- C7: PDF extraction concatenates the per-page texts in page order with
no separator, a page with no extractable text contributing the empty
string without failing; DOCX extraction joins all paragraph texts in
document order with a single newline between consecutive paragraphs. -/
theorem claim_c7_extraction_order :
    (∀ pages, extract_text_from_pdf pages
        = (pages.map (fun p => p.getD [])).flatten) ∧
      (∀ l r, extract_text_from_pdf (l ++ none :: r)
        = extract_text_from_pdf (l ++ r)) ∧
      extract_text_from_docx [] = [] ∧
      (∀ p ps, extract_text_from_docx (p :: ps)
        = p ++ (ps.map (fun q => '\n' :: q)).flatten) :=
  ⟨extract_pdf_flatten, extract_pdf_none_skip, rfl, extract_docx_cons⟩

/-- C8: the text "Messi scored a great goal in the FIFA match" scores the
keywords messi, goal and fifa once each for Football, no other category
outscores it, and `categorize_text` returns "Football". -/
theorem claim_c8_messi_football :
    categorize_text "Messi scored a great goal in the FIFA match".data
        = "Football" ∧
      pyCount ("Messi scored a great goal in the FIFA match".data.map
        Char.toLower) "messi".data = 1 ∧
      pyCount ("Messi scored a great goal in the FIFA match".data.map
        Char.toLower) "goal".data = 1 ∧
      pyCount ("Messi scored a great goal in the FIFA match".data.map
        Char.toLower) "fifa".data = 1 := by
  decide

/-- C9: classification is deterministic: two invocations on the identical
text and the identical keyword table return the identical label. -/
theorem claim_c9_deterministic (tab tab' : List (String × List String))
    (t t' : List Char) (htab : tab = tab') (ht : t = t') :
    categorize tab t = categorize tab' t' := by
  rw [htab, ht]

/-- C9 witness: two invocations on the table and the text "goal". -/
theorem claim_c9_witness :
    categorize SPORT_CATEGORIES "goal".data
      = categorize SPORT_CATEGORIES "goal".data :=
  claim_c9_deterministic SPORT_CATEGORIES SPORT_CATEGORIES
    "goal".data "goal".data rfl rfl

/-- C10: on the one-word text "basketball" the Cricket keyword "ball"
matches as a substring of "basketball", tying Cricket and Basketball at
score one; Cricket (index 1) precedes Basketball (index 2) in table order,
so `categorize_text` returns "Cricket", not "Basketball". -/
theorem claim_c10_basketball_is_cricket :
    categorize_text "basketball".data = "Cricket" ∧
      sportScore "basketball".data 1 = 1 ∧
      sportScore "basketball".data 2 = 1 ∧
      pyCount "basketball".data "ball".data = 1 := by
  decide
